import Mathlib

/-!
Verification of the `logger` package of DOCUMENT_PORTAL.

The package initialization file `src/logger/__init__.py` is:

  from .custom_logger import CustomLogger
  _custom_logger = CustomLogger()
  GLOBAL_LOGGER = _custom_logger.get_logger("document_portal")
  __all__ = ["GLOBAL_LOGGER", "CustomLogger"]

The collaborator module `custom_logger.py` is not part of the given
source, so the `CustomLogger` provider is modelled from the spec's
capability contract: a constructor producing a ready sink/formatter
configuration (failing with `ConfigurationError` on an invalid sink),
and a `get_logger(name) -> handle` method that is infallible on a
successfully constructed provider, with all handles sharing the
provider's configuration.
-/

/-- Modelled from the spec: the configuration of the underlying logging
implementation (level, format, destinations) together with whether the
configured sink is constructible; `custom_logger.py` is missing from the
given source. -/
structure LogConfig where
  level : Nat
  format : String
  destinations : List String
  sinkValid : Bool
deriving Repr, DecidableEq

/-- Modelled from the spec: the only error kind this component surfaces,
raised when the underlying logging implementation cannot be constructed. -/
inductive ConfigurationError where
  | invalidSink : ConfigurationError
deriving Repr, DecidableEq

/-- Modelled from the spec: the underlying logger implementation instance
(`CustomLogger` in the missing `custom_logger.py`), owning the sink and
formatter configuration fixed at construction time. -/
structure CustomLogger where
  config : LogConfig
deriving Repr, DecidableEq

/-- Modelled from the spec: `CustomLogger()` construction. It fails with a
`ConfigurationError` exactly when the sink configuration is invalid;
otherwise it yields an instance owning the given configuration. -/
def CustomLogger.construct (cfg : LogConfig) : Except ConfigurationError CustomLogger :=
  if cfg.sinkValid then Except.ok { config := cfg } else Except.error ConfigurationError.invalidSink

/-- Modelled from the spec: a named logger handle, bound to a component
name, backed by the provider instance it was obtained from, and observing
the provider's configuration (level, format, destinations) at creation. -/
structure LoggerHandle where
  name : String
  backing : CustomLogger
  level : Nat
  format : String
  destinations : List String
deriving Repr, DecidableEq

/-- Modelled from the spec: `CustomLogger.get_logger(name)`: hands out a
handle tagged with `name`, backed by this provider instance, snapshotting
the provider's configuration. -/
def CustomLogger.get_logger (cl : CustomLogger) (name : String) : LoggerHandle :=
  { name := name
    backing := cl
    level := cl.config.level
    format := cl.config.format
    destinations := cl.config.destinations }

/-- Modelled from the spec: the fallible call surface of `get_logger`.
Per the spec it must not fail on a successfully constructed provider, so
it always returns the handle. -/
def CustomLogger.get_loggerE (cl : CustomLogger) (name : String) :
    Except ConfigurationError LoggerHandle :=
  Except.ok (cl.get_logger name)

/-- One call into the external collaborator (`CustomLogger`), recorded in
a trace: either the zero-argument construction or a `get_logger` call. -/
inductive CollabCall where
  | construct : CollabCall
  | getLogger : String → CollabCall
deriving Repr, DecidableEq

/-- The bindings established by `src/logger/__init__.py`:
`_custom_logger`, `GLOBAL_LOGGER`, and `__all__` (field `all`). -/
structure LoggerModule where
  custom_logger : CustomLogger
  GLOBAL_LOGGER : LoggerHandle
  all : List String
deriving Repr, DecidableEq

/-- Shallow embedding of the body of `src/logger/__init__.py`:
construct the provider (`_custom_logger = CustomLogger()`), derive the
global handle (`GLOBAL_LOGGER = _custom_logger.get_logger("document_portal")`),
and set `__all__`. Returns the module bindings (or the construction
error) together with the trace of collaborator calls performed. -/
def initLoggerModule (cfg : LogConfig) :
    Except ConfigurationError LoggerModule × List CollabCall :=
  match CustomLogger.construct cfg with
  | Except.error e => (Except.error e, [CollabCall.construct])
  | Except.ok cl =>
    match cl.get_loggerE "document_portal" with
    | Except.error e => (Except.error e, [CollabCall.construct, CollabCall.getLogger "document_portal"])
    | Except.ok h =>
      (Except.ok
        { custom_logger := cl
          GLOBAL_LOGGER := h
          all := ["GLOBAL_LOGGER", "CustomLogger"] },
       [CollabCall.construct, CollabCall.getLogger "document_portal"])

/-- Process-wide state: the module cache entry for the `logger` package
(Python `sys.modules` semantics: a module body runs at most once per
process), the sinks registered so far by provider construction, and the
trace of collaborator calls made so far. -/
structure ProcessState where
  loadedModule : Option LoggerModule
  registeredSinks : List String
  trace : List CollabCall
deriving Repr, DecidableEq

/-- A process before the `logger` package has ever been imported. -/
def freshProcess : ProcessState :=
  { loadedModule := none, registeredSinks := [], trace := [] }

/-- Importing the `logger` package: per Python module-load semantics the
body `initLoggerModule` runs only when the package is not already in the
module cache; a cached module is returned unchanged. Successful
construction registers the configured destinations as sinks. -/
def loadModule (cfg : LogConfig) (s : ProcessState) :
    Except ConfigurationError ProcessState :=
  match s.loadedModule with
  | some _ => Except.ok s
  | none =>
    match initLoggerModule cfg with
    | (Except.error e, _) => Except.error e
    | (Except.ok m, tr) =>
      Except.ok
        { loadedModule := some m
          registeredSinks := s.registeredSinks ++ cfg.destinations
          trace := s.trace ++ tr }

/-- The two lifecycle states of the component. -/
inductive LifecycleState where
  | Uninitialized : LifecycleState
  | Ready : LifecycleState
deriving Repr, DecidableEq

/-- The component's lifecycle state: `Ready` exactly when the module has
been loaded and its bindings published. -/
def ProcessState.lifecycle (s : ProcessState) : LifecycleState :=
  match s.loadedModule with
  | some _ => LifecycleState.Ready
  | none => LifecycleState.Uninitialized

/-- Emitting one record: one formatted line per registered sink. -/
def emitRecord (s : ProcessState) (line : String) : List String :=
  s.registeredSinks.map (fun d => d ++ ": " ++ line)

/-- A concrete valid configuration, used as a witness input. -/
def validCfg : LogConfig :=
  { level := 20, format := "plain", destinations := ["console"], sinkValid := true }

/-- A concrete invalid configuration (unconstructible sink). -/
def invalidCfg : LogConfig :=
  { level := 20, format := "plain", destinations := ["bad"], sinkValid := false }

/-- The module bindings produced by a successful load with `validCfg`. -/
def validModule : LoggerModule :=
  { custom_logger := { config := validCfg }
    GLOBAL_LOGGER := CustomLogger.get_logger { config := validCfg } "document_portal"
    all := ["GLOBAL_LOGGER", "CustomLogger"] }

/-- The process state after a successful first load with `validCfg`. -/
def loadedState : ProcessState :=
  { loadedModule := some validModule
    registeredSinks := ["console"]
    trace := [CollabCall.construct, CollabCall.getLogger "document_portal"] }

/-- If module initialization succeeds, the published module is the one
built from the constructed provider. -/
theorem initLoggerModule_ok (cfg : LogConfig) (m : LoggerModule)
    (h : (initLoggerModule cfg).fst = Except.ok m) :
    ∃ cl, CustomLogger.construct cfg = Except.ok cl ∧
      m = { custom_logger := cl
            GLOBAL_LOGGER := cl.get_logger "document_portal"
            all := ["GLOBAL_LOGGER", "CustomLogger"] } := by
  cases hc : CustomLogger.construct cfg with
  | error e =>
    exact absurd h (by simp [initLoggerModule, hc])
  | ok cl =>
    refine ⟨cl, rfl, ?_⟩
    have := h
    simp [initLoggerModule, hc, CustomLogger.get_loggerE] at this
    exact this.symm

/-- C1: the published global logger handle `GLOBAL_LOGGER` is exactly the
handle returned by the provider's `get_logger` called with the name
"document_portal", and its name equals "document_portal" exactly. -/
theorem C1_global_logger (cfg : LogConfig) (m : LoggerModule)
    (h : (initLoggerModule cfg).fst = Except.ok m) :
    m.GLOBAL_LOGGER = m.custom_logger.get_logger "document_portal" ∧
    m.GLOBAL_LOGGER.name = "document_portal" := by
  obtain ⟨cl, _, hm⟩ := initLoggerModule_ok cfg m h
  subst hm
  exact ⟨rfl, rfl⟩

/-- C1 witness: at the concrete valid configuration. -/
theorem C1_witness :
    validModule.GLOBAL_LOGGER = validModule.custom_logger.get_logger "document_portal" ∧
    validModule.GLOBAL_LOGGER.name = "document_portal" :=
  C1_global_logger validCfg validModule rfl

/-- C2: the package's public export surface (`__all__`) is exactly the
two symbols GLOBAL_LOGGER and CustomLogger; in particular the private
provider instance `_custom_logger` is not exposed. -/
theorem C2_export_surface (cfg : LogConfig) (m : LoggerModule)
    (h : (initLoggerModule cfg).fst = Except.ok m) :
    m.all = ["GLOBAL_LOGGER", "CustomLogger"] ∧
    "_custom_logger" ∉ m.all := by
  obtain ⟨cl, _, hm⟩ := initLoggerModule_ok cfg m h
  subst hm
  refine ⟨rfl, ?_⟩
  show "_custom_logger" ∉ ["GLOBAL_LOGGER", "CustomLogger"]
  decide

/-- C2 witness: at the concrete valid configuration. -/
theorem C2_witness :
    validModule.all = ["GLOBAL_LOGGER", "CustomLogger"] ∧
    "_custom_logger" ∉ validModule.all :=
  C2_export_surface validCfg validModule rfl

/-- C3: if construction of the underlying logging implementation fails,
the ConfigurationError is surfaced by module initialization, and a load
from a fresh process publishes nothing: no module state (hence no
GLOBAL_LOGGER binding) is produced. -/
theorem C3_construction_failure (cfg : LogConfig) (e : ConfigurationError)
    (h : CustomLogger.construct cfg = Except.error e) :
    (initLoggerModule cfg).fst = Except.error e ∧
    loadModule cfg freshProcess = Except.error e := by
  constructor
  · simp [initLoggerModule, h]
  · simp [loadModule, freshProcess, initLoggerModule, h]

/-- C3 witness: at the concrete invalid configuration. -/
theorem C3_witness :
    (initLoggerModule invalidCfg).fst = Except.error ConfigurationError.invalidSink ∧
    loadModule invalidCfg freshProcess = Except.error ConfigurationError.invalidSink :=
  C3_construction_failure invalidCfg ConfigurationError.invalidSink rfl

/-- C4: for every non-empty name, `get_logger` on a successfully
constructed provider does not fail: it returns a handle tagged with that
name. -/
theorem C4_get_logger_infallible (cl : CustomLogger) (name : String)
    (h : name ≠ "") :
    ∃ hdl, cl.get_loggerE name = Except.ok hdl ∧ hdl.name = name :=
  ⟨cl.get_logger name, rfl, rfl⟩

/-- C4 witness: at a concrete provider and name. -/
theorem C4_witness :
    ∃ hdl, CustomLogger.get_loggerE { config := validCfg } "worker-1" = Except.ok hdl ∧
      hdl.name = "worker-1" :=
  C4_get_logger_infallible { config := validCfg } "worker-1" (by decide)

/-- C5: module initialization constructs exactly one implementation
instance (one `construct` call in the trace), and every handle handed out
(the global one and any later `get_logger` result) is backed by that same
instance `_custom_logger`. -/
theorem C5_single_instance (cfg : LogConfig) (m : LoggerModule)
    (h : (initLoggerModule cfg).fst = Except.ok m) :
    (initLoggerModule cfg).snd.count CollabCall.construct = 1 ∧
    m.GLOBAL_LOGGER.backing = m.custom_logger ∧
    ∀ name, (m.custom_logger.get_logger name).backing = m.custom_logger := by
  obtain ⟨cl, hc, hm⟩ := initLoggerModule_ok cfg m h
  subst hm
  refine ⟨?_, rfl, fun _ => rfl⟩
  simp [initLoggerModule, hc, CustomLogger.get_loggerE, List.count_cons]

/-- C5 witness: at the concrete valid configuration. -/
theorem C5_witness :
    (initLoggerModule validCfg).snd.count CollabCall.construct = 1 ∧
    validModule.GLOBAL_LOGGER.backing = validModule.custom_logger ∧
    ∀ name, (validModule.custom_logger.get_logger name).backing = validModule.custom_logger :=
  C5_single_instance validCfg validModule rfl

/-- C6: any two handles obtained from the same provider instance
(including two `get_logger` calls with the same name) observe the same
configuration at creation: same level, same format, same destinations. -/
theorem C6_same_config (cl : CustomLogger) (n1 n2 : String) :
    (cl.get_logger n1).level = (cl.get_logger n2).level ∧
    (cl.get_logger n1).format = (cl.get_logger n2).format ∧
    (cl.get_logger n1).destinations = (cl.get_logger n2).destinations :=
  ⟨rfl, rfl, rfl⟩

/-- C7: loading the module a second time within one process is a no-op
(the cached module is returned, no module body re-runs), so the sinks are
registered exactly once and a single emitted record produces one line per
configured destination, with no duplicates. -/
theorem C7_idempotent_load (cfg : LogConfig) (s1 : ProcessState)
    (h : loadModule cfg freshProcess = Except.ok s1) :
    loadModule cfg s1 = Except.ok s1 ∧
    s1.registeredSinks = cfg.destinations ∧
    ∀ line, (emitRecord s1 line).length = cfg.destinations.length := by
  cases hi : (initLoggerModule cfg).fst with
  | error e =>
    exfalso
    have : loadModule cfg freshProcess = Except.error e := by
      simp only [loadModule, freshProcess]
      cases hp : initLoggerModule cfg with
      | mk r tr => rw [hp] at hi; simp at hi; subst hi; rfl
    rw [this] at h
    exact Except.noConfusion h
  | ok m =>
    have hs1 : s1 = { loadedModule := some m
                      registeredSinks := cfg.destinations
                      trace := (initLoggerModule cfg).snd } := by
      have : loadModule cfg freshProcess =
          Except.ok { loadedModule := some m
                      registeredSinks := cfg.destinations
                      trace := (initLoggerModule cfg).snd } := by
        simp only [loadModule, freshProcess]
        cases hp : initLoggerModule cfg with
        | mk r tr =>
          rw [hp] at hi
          simp at hi
          subst hi
          simp
      rw [this] at h
      exact (Except.ok.injEq _ _ ▸ congrArg id h :
        ({ loadedModule := some m, registeredSinks := cfg.destinations,
           trace := (initLoggerModule cfg).snd } : ProcessState) = s1).symm
    subst hs1
    refine ⟨rfl, rfl, fun line => ?_⟩
    simp [emitRecord]

/-- C7 witness: at the concrete valid configuration and loaded state. -/
theorem C7_witness :
    loadModule validCfg loadedState = Except.ok loadedState ∧
    loadedState.registeredSinks = validCfg.destinations ∧
    (emitRecord loadedState "started").length = validCfg.destinations.length :=
  ⟨(C7_idempotent_load validCfg loadedState rfl).1,
   (C7_idempotent_load validCfg loadedState rfl).2.1,
   (C7_idempotent_load validCfg loadedState rfl).2.2 "started"⟩

/-- On a successful construction, the collaborator-call trace of module
initialization is construction followed by the one `get_logger` call. -/
theorem initTrace_ok (cfg : LogConfig) (cl : CustomLogger)
    (hc : CustomLogger.construct cfg = Except.ok cl) :
    (initLoggerModule cfg).snd =
      [CollabCall.construct, CollabCall.getLogger "document_portal"] := by
  simp [initLoggerModule, hc, CustomLogger.get_loggerE]

/-- A successful load from a fresh process yields the published module,
the registered destinations, and the initialization trace. -/
theorem loadModule_fresh_ok (cfg : LogConfig) (s1 : ProcessState)
    (h : loadModule cfg freshProcess = Except.ok s1) :
    ∃ m, (initLoggerModule cfg).fst = Except.ok m ∧
      s1 = { loadedModule := some m
             registeredSinks := cfg.destinations
             trace := (initLoggerModule cfg).snd } := by
  cases hp : initLoggerModule cfg with
  | mk r tr =>
    cases r with
    | error e =>
      simp only [loadModule, freshProcess, hp] at h
      exact Except.noConfusion h
    | ok m =>
      refine ⟨m, rfl, ?_⟩
      simp only [loadModule, freshProcess, hp, Except.ok.injEq] at h
      simp only [List.nil_append] at h
      exact h.symm

/-- C8: the lifecycle transitions exactly once from Uninitialized to
Ready: a fresh process is Uninitialized, a successful load makes it Ready
with exactly one provider construction performed, and every further load
returns the same Ready state unchanged (never leaving Ready and never
re-constructing). -/
theorem C8_lifecycle (cfg : LogConfig) (s1 : ProcessState)
    (h : loadModule cfg freshProcess = Except.ok s1) :
    freshProcess.lifecycle = LifecycleState.Uninitialized ∧
    s1.lifecycle = LifecycleState.Ready ∧
    s1.trace.count CollabCall.construct = 1 ∧
    ∀ cfg2, loadModule cfg2 s1 = Except.ok s1 := by
  obtain ⟨m, hi, hs1⟩ := loadModule_fresh_ok cfg s1 h
  obtain ⟨cl, hc, _⟩ := initLoggerModule_ok cfg m hi
  subst hs1
  refine ⟨rfl, rfl, ?_, fun cfg2 => rfl⟩
  show ((initLoggerModule cfg).snd).count CollabCall.construct = 1
  rw [initTrace_ok cfg cl hc]
  decide

/-- C8 witness: at the concrete valid configuration. -/
theorem C8_witness :
    freshProcess.lifecycle = LifecycleState.Uninitialized ∧
    loadedState.lifecycle = LifecycleState.Ready ∧
    loadedState.trace.count CollabCall.construct = 1 ∧
    loadModule invalidCfg loadedState = Except.ok loadedState :=
  ⟨(C8_lifecycle validCfg loadedState rfl).1,
   (C8_lifecycle validCfg loadedState rfl).2.1,
   (C8_lifecycle validCfg loadedState rfl).2.2.1,
   (C8_lifecycle validCfg loadedState rfl).2.2.2 invalidCfg⟩

/-- C9: after successful initialization the module's bindings are never
rebound: the only operation touching the module (a further import, with
any configuration) returns a state whose published module is the same,
so `GLOBAL_LOGGER` and `_custom_logger` are unchanged. -/
theorem C9_no_rebinding (s : ProcessState) (m : LoggerModule)
    (h : s.loadedModule = some m) :
    ∀ cfg2, ∃ s2, loadModule cfg2 s = Except.ok s2 ∧
      s2.loadedModule = some m ∧
      ∀ m2, s2.loadedModule = some m2 →
        m2.GLOBAL_LOGGER = m.GLOBAL_LOGGER ∧ m2.custom_logger = m.custom_logger := by
  intro cfg2
  refine ⟨s, by simp [loadModule, h], h, ?_⟩
  intro m2 hm2
  rw [h] at hm2
  injection hm2 with e
  subst e
  exact ⟨rfl, rfl⟩

/-- C9 witness: at the concrete loaded state and module. -/
theorem C9_witness :
    ∃ s2, loadModule invalidCfg loadedState = Except.ok s2 ∧
      s2.loadedModule = some validModule ∧
      ∀ m2, s2.loadedModule = some m2 →
        m2.GLOBAL_LOGGER = validModule.GLOBAL_LOGGER ∧
        m2.custom_logger = validModule.custom_logger :=
  C9_no_rebinding loadedState validModule rfl invalidCfg

/-- C10: successful module initialization performs exactly two calls into
the external collaborator, in order: one zero-argument construction, then
one `get_logger` call with the exact string "document_portal"; nothing
else. -/
theorem C10_call_sequence (cfg : LogConfig) (m : LoggerModule)
    (h : (initLoggerModule cfg).fst = Except.ok m) :
    (initLoggerModule cfg).snd =
      [CollabCall.construct, CollabCall.getLogger "document_portal"] := by
  obtain ⟨cl, hc, _⟩ := initLoggerModule_ok cfg m h
  exact initTrace_ok cfg cl hc

/-- C10 witness: at the concrete valid configuration. -/
theorem C10_witness :
    (initLoggerModule validCfg).snd =
      [CollabCall.construct, CollabCall.getLogger "document_portal"] :=
  C10_call_sequence validCfg validModule rfl
